import Mathlib

/-!
Shallow embedding of the backend process-supervision and streaming-protocol
layer of VideoSyncMaster (`src/ui/electron/main.ts`), with proofs about the
claims of its specification.

JavaScript strings are modelled as Lean `String`s viewed as lists of
characters (`String.data`); the JavaScript string primitives the source
uses (`split`, `match` with its two literal regexes, `indexOf`,
`lastIndexOf`, `substring`, `trim`, `startsWith`, `parseInt`, `JSON.parse`)
are given faithful executable models below.  Node's `path` module is
modelled in its POSIX flavour; the win32 flavour differs only in separator
characters and drive letters, immaterial to the properties considered.
-/

/-- The whitespace class of the JavaScript regex `\s` and of
`String.prototype.trim` (ASCII part plus NBSP; the remaining Unicode space
characters never occur in the inputs considered). -/
def isJsWs (c : Char) : Bool :=
  c = ' ' || c = '\t' || c = '\n' || c = '\r' || c = '\x0b' || c = '\x0c' || c = '\u00A0'

/-- JavaScript line terminators, which `.` in a regex does not match. -/
def isLineTerm (c : Char) : Bool :=
  c = '\n' || c = '\r' || c = '\u2028' || c = '\u2029'

/-- `String.prototype.split` with a one-character separator, on the
character list: every occurrence of the separator splits, and empty
segments are kept. -/
def splitGo (sep : Char) : List Char → List (List Char)
  | [] => [[]]
  | c :: cs =>
    if c = sep then [] :: splitGo sep cs
    else
      match splitGo sep cs with
      | [] => [[c]]
      | seg :: segs => (c :: seg) :: segs

/-- `s.split(sep)` for a one-character separator (no limit argument). -/
def jsSplitChar (sep : Char) (s : String) : List String :=
  (splitGo sep s.data).map String.mk

/-- First index at which `needle` occurs in the list, scanning left to
right, offset by `i`. -/
def indexOfAux (needle : List Char) : List Char → Nat → Option Nat
  | [], i => if needle = [] then some i else none
  | c :: cs, i =>
    if needle.isPrefixOf (c :: cs) then some i else indexOfAux needle cs (i + 1)

/-- `s.indexOf(pat)`, with `none` for JavaScript's `-1`. -/
def jsIndexOf (s pat : String) : Option Nat :=
  indexOfAux pat.data s.data 0

/-- `s.indexOf(c)` for a one-character pattern. -/
def jsIndexOfChar (s : String) (c : Char) : Option Nat :=
  indexOfAux [c] s.data 0

/-- `s.lastIndexOf(c)` for a one-character pattern. -/
def jsLastIndexOfChar (s : String) (c : Char) : Option Nat :=
  match indexOfAux [c] s.data.reverse 0 with
  | some i => some (s.data.length - 1 - i)
  | none => none

/-- `s.substring(a, b)`: both arguments are clamped to the length and
swapped when `a > b`. -/
def jsSubstring (s : String) (a b : Nat) : String :=
  let n := s.data.length
  let x := min (min a n) (min b n)
  let y := max (min a n) (min b n)
  String.mk ((s.data.drop x).take (y - x))

/-- `s.trim()`. -/
def jsTrim (s : String) : String :=
  String.mk ((s.data.dropWhile isJsWs).reverse.dropWhile isJsWs).reverse

/-- `s.startsWith(pre)`. -/
def jsStartsWith (s pre : String) : Bool :=
  pre.data.isPrefixOf s.data

/-- `parseInt(ds, 10)` on a non-empty run of decimal digits. -/
def digitsToNat (ds : List Char) : Nat :=
  ds.foldl (fun a c => 10 * a + (c.toNat - '0'.toNat)) 0

/-- Model of `line.match(/\[PROGRESS\]\s*(\d+)/)` followed by `parseInt` of
capture group 1 (main.ts 181-183).  The regex engine tries every start
position left to right; at a position where the literal matches but no
digit follows the whitespace run it moves on to the next position, exactly
as the recursion does. -/
def progressScanAux : List Char → Option Nat
  | [] => none
  | c :: cs =>
    if ("[PROGRESS]").data.isPrefixOf (c :: cs) then
      let ds := (((c :: cs).drop 10).dropWhile isJsWs).takeWhile Char.isDigit
      if ds.isEmpty then progressScanAux cs else some (digitsToNat ds)
    else progressScanAux cs

def progressMatch (line : String) : Option Nat :=
  progressScanAux line.data

/-- Model of capture group 1 of `line.match(/\[PARTIAL\]\s*(.*)/)`
(main.ts 188): the text after the first occurrence of the literal and the
following maximal whitespace run, up to the first line terminator (`.`
matches neither `\n` nor `\r`).  The match succeeds at every occurrence of
the literal since both `\s*` and `(.*)` can be empty. -/
def partialScanAux : List Char → Option String
  | [] => none
  | c :: cs =>
    if ("[PARTIAL]").data.isPrefixOf (c :: cs) then
      some (String.mk ((((c :: cs).drop 9).dropWhile isJsWs).takeWhile (fun d => !isLineTerm d)))
    else partialScanAux cs

def partialCapture (line : String) : Option String :=
  partialScanAux line.data

/-- JSON values as produced by `JSON.parse`.  Number literals keep their
source token (no claim depends on floating-point arithmetic); object
fields keep source order. -/
inductive Json where
  | null : Json
  | bool (b : Bool) : Json
  | num (tok : String) : Json
  | str (s : String) : Json
  | arr (elems : List Json) : Json
  | obj (fields : List (String × Json)) : Json

/-- JSON insignificant whitespace. -/
def isJsonWs (c : Char) : Bool :=
  c = ' ' || c = '\t' || c = '\n' || c = '\r'

def skipWs (l : List Char) : List Char :=
  l.dropWhile isJsonWs

def hexVal (c : Char) : Option Nat :=
  if '0' ≤ c ∧ c ≤ '9' then some (c.toNat - '0'.toNat)
  else if 'a' ≤ c ∧ c ≤ 'f' then some (c.toNat - 'a'.toNat + 10)
  else if 'A' ≤ c ∧ c ≤ 'F' then some (c.toNat - 'A'.toNat + 10)
  else none

/-- Body of a JSON string literal, after the opening quote; yields the
decoded text and the input after the closing quote.  A `\uXXXX` escape
denoting an invalid scalar decodes through `Char.ofNat`'s fallback
(surrogate pairing is not modelled; no considered input uses it). -/
def parseStrBody (fuel : Nat) (l : List Char) (acc : List Char) : Option (String × List Char) :=
  match fuel, l with
  | 0, _ => none
  | _, [] => none
  | fuel' + 1, c :: r =>
    if c = '"' then some (String.mk acc.reverse, r)
    else if c = '\\' then
      match r with
      | [] => none
      | e :: r2 =>
        if e = '"' then parseStrBody fuel' r2 ('"' :: acc)
        else if e = '\\' then parseStrBody fuel' r2 ('\\' :: acc)
        else if e = '/' then parseStrBody fuel' r2 ('/' :: acc)
        else if e = 'b' then parseStrBody fuel' r2 ('\x08' :: acc)
        else if e = 'f' then parseStrBody fuel' r2 ('\x0c' :: acc)
        else if e = 'n' then parseStrBody fuel' r2 ('\n' :: acc)
        else if e = 'r' then parseStrBody fuel' r2 ('\r' :: acc)
        else if e = 't' then parseStrBody fuel' r2 ('\t' :: acc)
        else if e = 'u' then
          match r2 with
          | h1 :: h2 :: h3 :: h4 :: r3 =>
            match hexVal h1, hexVal h2, hexVal h3, hexVal h4 with
            | some a, some b, some c2, some d =>
              parseStrBody fuel' r3 (Char.ofNat (((a * 16 + b) * 16 + c2) * 16 + d) :: acc)
            | _, _, _, _ => none
          | _ => none
        else none
    else if c.toNat < 32 then none
    else parseStrBody fuel' r (c :: acc)

/-- A JSON number token starting at `l`: optional minus, integer part with
the leading-zero restriction, optional fraction and exponent.  Yields the
raw token and the rest of the input. -/
def parseNumTok (l : List Char) : Option (String × List Char) :=
  let sl : List Char × List Char :=
    match l with
    | '-' :: r => (['-'], r)
    | _ => ([], l)
  let intPart : Option (List Char × List Char) :=
    match sl.2 with
    | [] => none
    | '0' :: r => some (['0'], r)
    | c :: _ =>
      if c.isDigit then some (sl.2.takeWhile Char.isDigit, sl.2.dropWhile Char.isDigit)
      else none
  match intPart with
  | none => none
  | some (ip, l2) =>
    let fracPart : Option (List Char × List Char) :=
      match l2 with
      | '.' :: r =>
        let ds := r.takeWhile Char.isDigit
        if ds.isEmpty then none else some ('.' :: ds, r.dropWhile Char.isDigit)
      | _ => some ([], l2)
    match fracPart with
    | none => none
    | some (fp, l3) =>
      let expPart : Option (List Char × List Char) :=
        match l3 with
        | [] => some ([], l3)
        | e :: r =>
          if e = 'e' || e = 'E' then
            let sr : List Char × List Char :=
              match r with
              | '+' :: r3 => (['+'], r3)
              | '-' :: r3 => (['-'], r3)
              | _ => ([], r)
            let ds := sr.2.takeWhile Char.isDigit
            if ds.isEmpty then none
            else some (e :: (sr.1 ++ ds), sr.2.dropWhile Char.isDigit)
          else some ([], l3)
      match expPart with
      | none => none
      | some (ep, l4) => some (String.mk (sl.1 ++ ip ++ fp ++ ep), l4)

mutual

/-- `JSON.parse` value parser, recursive descent; `fuel` only bounds the
recursion depth and is chosen larger than the input can ever need. -/
def parseVal (fuel : Nat) (l : List Char) : Option (Json × List Char) :=
  match fuel with
  | 0 => none
  | fuel' + 1 =>
    match skipWs l with
    | '{' :: r => parseObj fuel' r
    | '[' :: r => parseArr fuel' r
    | '"' :: r => (parseStrBody (r.length + 1) r []).map (fun p => (Json.str p.1, p.2))
    | 'n' :: 'u' :: 'l' :: 'l' :: r => some (Json.null, r)
    | 't' :: 'r' :: 'u' :: 'e' :: r => some (Json.bool true, r)
    | 'f' :: 'a' :: 'l' :: 's' :: 'e' :: r => some (Json.bool false, r)
    | l' => (parseNumTok l').map (fun p => (Json.num p.1, p.2))

/-- Object body after the opening brace. -/
def parseObj (fuel : Nat) (l : List Char) : Option (Json × List Char) :=
  match fuel with
  | 0 => none
  | fuel' + 1 =>
    match skipWs l with
    | '}' :: r => some (Json.obj [], r)
    | _ => parseMembers fuel' l []

def parseMembers (fuel : Nat) (l : List Char) (acc : List (String × Json)) :
    Option (Json × List Char) :=
  match fuel with
  | 0 => none
  | fuel' + 1 =>
    match skipWs l with
    | '"' :: r =>
      match parseStrBody (r.length + 1) r [] with
      | none => none
      | some (k, r2) =>
        match skipWs r2 with
        | ':' :: r3 =>
          match parseVal fuel' r3 with
          | none => none
          | some (v, r4) =>
            match skipWs r4 with
            | ',' :: r5 => parseMembers fuel' r5 (acc ++ [(k, v)])
            | '}' :: r5 => some (Json.obj (acc ++ [(k, v)]), r5)
            | _ => none
        | _ => none
    | _ => none

/-- Array body after the opening bracket. -/
def parseArr (fuel : Nat) (l : List Char) : Option (Json × List Char) :=
  match fuel with
  | 0 => none
  | fuel' + 1 =>
    match skipWs l with
    | ']' :: r => some (Json.arr [], r)
    | _ => parseElems fuel' l []

def parseElems (fuel : Nat) (l : List Char) (acc : List Json) : Option (Json × List Char) :=
  match fuel with
  | 0 => none
  | fuel' + 1 =>
    match parseVal fuel' l with
    | none => none
    | some (v, r) =>
      match skipWs r with
      | ',' :: r2 => parseElems fuel' r2 (acc ++ [v])
      | ']' :: r2 => some (Json.arr (acc ++ [v]), r2)
      | _ => none

end

/-- `JSON.parse(s)` as an `Option`: `none` models the thrown
`SyntaxError`; trailing junk after the value is an error. -/
def jsonParse (s : String) : Option Json :=
  match parseVal (4 * s.data.length + 16) s.data with
  | some (j, rest) => if (skipWs rest).isEmpty then some j else none
  | none => none

/-- JavaScript property access `r.missing` on a parsed JSON value: on
objects the later of duplicate keys wins (as with `JSON.parse`); on
anything else the result is `undefined`, modelled as `none`. -/
def jsGetField (j : Json) (k : String) : Option Json :=
  match j with
  | Json.obj fields => (fields.reverse.find? (fun p => p.1 == k)).map (fun p => p.2)
  | _ => none

/-- JavaScript truthiness of a JSON value.  A number token is falsy
exactly when its numeric value is zero, i.e. when it has no nonzero
digit. -/
def jsTruthy (j : Json) : Bool :=
  match j with
  | Json.null => false
  | Json.bool b => b
  | Json.str s => !s.data.isEmpty
  | Json.num tok => tok.data.any (fun c => '1' ≤ c && c ≤ '9')
  | Json.arr _ => true
  | Json.obj _ => true

/-- `result.missing || []` (main.ts 525). -/
def jsMissingOrEmpty (r : Json) : Json :=
  match jsGetField r "missing" with
  | some v => if jsTruthy v then v else Json.arr []
  | none => Json.arr []

/-- One decoded protocol event, as relayed to the renderer over the
`backend-progress` / `backend-partial-result` channels. -/
inductive PEvent where
  | progress (p : Nat) : PEvent
  | partialResult (data : Json) : PEvent

/-- Events emitted for one line by the stdout data handler
(main.ts 179-197): the `[PROGRESS]` test first, then the `[PARTIAL]` test
with `JSON.parse` of the trimmed capture, a parse failure being logged and
dropped. -/
def lineEvents (line : String) : List PEvent :=
  (match progressMatch line with
   | some p => [PEvent.progress p]
   | none => []) ++
  (match partialCapture line with
   | some cap =>
     match jsonParse (jsTrim cap) with
     | some d => [PEvent.partialResult d]
     | none => []
   | none => [])

/-- Events emitted when one stdout chunk arrives: the chunk alone is split
on newlines (main.ts 178) — no partial line is carried over to the next
chunk. -/
def chunkEvents (chunk : String) : List PEvent :=
  ((jsSplitChar '\n' chunk).map lineEvents).flatten

/-- Events over a whole sequence of stdout chunks, in arrival order. -/
def chunksEvents (chunks : List String) : List PEvent :=
  (chunks.map chunkEvents).flatten

/-- `outputData` after all chunks have arrived (main.ts 200). -/
def accumulated (chunks : List String) : String :=
  String.join chunks

def startMarker : String := "__JSON_START__"

def endMarker : String := "__JSON_END__"

/-- How the `run-backend` promise is settled by the `close` handler.  The
exit `code` is `none` when the process was killed by a signal (JavaScript
`null`, for which `code !== 0` also holds). -/
inductive CloseOutcome where
  | rejectedExit (code : Option Int) (stderr : String) : CloseOutcome
  | resolvedStructured (result : Json) : CloseOutcome
  | resolvedRaw (rawOutput rawError : String) : CloseOutcome
  | rejectedParse : CloseOutcome

def CloseOutcome.isResolved : CloseOutcome → Bool
  | resolvedStructured _ => true
  | resolvedRaw _ _ => true
  | _ => false

/-- The `close` handler (main.ts 209-234): a non-zero (or null) exit code
rejects with the exit code and the captured stderr, without looking at
stdout; on exit code 0 the sentinels are looked for in the complete
accumulated stdout — both found with a well-formed payload resolves
structured, both found with a malformed payload rejects from the catch
branch, and a missing sentinel resolves with the raw fallback object. -/
def closeHandler (code : Option Int) (outputData errorData : String) : CloseOutcome :=
  if code ≠ some 0 then CloseOutcome.rejectedExit code errorData
  else
    match jsIndexOf outputData startMarker, jsIndexOf outputData endMarker with
    | some si, some ei =>
      match jsonParse (jsTrim (jsSubstring outputData (si + startMarker.length) ei)) with
      | some j => CloseOutcome.resolvedStructured j
      | none => CloseOutcome.rejectedParse
    | _, _ => CloseOutcome.resolvedRaw outputData errorData

/-- `${code}` in a template literal. -/
def codeText : Option Int → String
  | some n => toString n
  | none => "null"

/-- The message of the rejection `Error` on non-zero exit (main.ts 212). -/
def rejectMessage (code : Option Int) (errorData : String) : String :=
  "Python process exited with code " ++ codeText code ++ ". Error: " ++ errorData

/-- One spawned worker process as the main process sees it: the buffers
held by the `run-backend` closure, whether its promise has settled and
with what, and whether the OS process is still alive. -/
structure WorkerProc where
  pid : Nat
  outputData : String
  errorData : String
  settled : Option CloseOutcome
  alive : Bool

/-- The supervision state: the spawned worker processes plus the single
mutable global `activeBackendProcess` (main.ts 26), tracked by pid. -/
structure SupState where
  procs : List WorkerProc
  active : Option Nat
  nextPid : Nat

def initialSup : SupState := { procs := [], active := none, nextPid := 0 }

/-- The synchronous part of the `run-backend` handler (main.ts 106-172):
spawn a fresh worker and unconditionally overwrite `activeBackendProcess`
with it.  The handler never consults the previous value of the handle,
never rejects a request because a job is already active, and never
signals the previously tracked process. -/
def runBackendStart (s : SupState) : SupState :=
  { procs := s.procs ++ [{ pid := s.nextPid, outputData := "", errorData := "",
                           settled := none, alive := true }],
    active := some s.nextPid,
    nextPid := s.nextPid + 1 }

/-- Arrival of one stdout chunk for process `p` (main.ts 175-201): the
chunk's events are relayed to the renderer and the raw chunk is appended
to that process's `outputData`. -/
def onStdoutData (s : SupState) (p : Nat) (chunk : String) : SupState × List PEvent :=
  ({ s with procs := s.procs.map (fun w =>
      if w.pid = p then { w with outputData := w.outputData ++ chunk } else w) },
   chunkEvents chunk)

/-- The `kill-backend` handler (main.ts 324-345) in the case where the
platform termination primitive does not throw: the tracked process (with
its tree) is forcibly terminated, the handle is cleared and `true` is
returned; with no tracked process it is a no-op returning `true`. -/
def killBackend (s : SupState) : SupState × Bool :=
  match s.active with
  | some p =>
    ({ s with
       procs := s.procs.map (fun w => if w.pid = p then { w with alive := false } else w),
       active := none }, true)
  | none => (s, true)

/-- The `close` event of process `p` (main.ts 209-234): clear the handle
if it still points at `p`, then settle `p`'s promise via `closeHandler`
(settlement is one-shot: an already settled promise keeps its outcome). -/
def onClose (s : SupState) (p : Nat) (code : Option Int) : SupState :=
  { s with
    active := if s.active = some p then none else s.active,
    procs := s.procs.map (fun w =>
      if w.pid = p then
        { w with alive := false,
                 settled := match w.settled with
                   | some o => some o
                   | none => some (closeHandler code w.outputData w.errorData) }
      else w) }

/-- One step of the segment processing of Node's `normalizeString`; the
stack of kept segments is reversed (head = most recently kept). -/
def stepSeg (allowAboveRoot : Bool) (acc : List (List Char)) (seg : List Char) :
    List (List Char) :=
  if seg = [] || seg = ['.'] then acc
  else if seg = ['.', '.'] then
    match acc with
    | top :: rest =>
      if top = ['.', '.'] then (if allowAboveRoot then seg :: acc else acc) else rest
    | [] => if allowAboveRoot then [seg] else []
  else seg :: acc

/-- Node `path.posix.normalize`. -/
def pathNormalize (p : String) : String :=
  match p.data with
  | [] => "."
  | l =>
    let isAbs := l.head? == some '/'
    let trailing := l.getLast? == some '/'
    let stack := ((splitGo '/' l).foldl (stepSeg (!isAbs)) []).reverse
    let body := String.intercalate "/" (stack.map String.mk)
    if body = "" then
      if isAbs then "/" else if trailing then "./" else "."
    else
      (if isAbs then "/" else "") ++ body ++ (if trailing then "/" else "")

/-- Node `path.posix.basename` (one-argument form): trailing separators
are ignored and the last segment is returned. -/
def pathBasename (p : String) : String :=
  String.mk (((p.data.reverse.dropWhile (fun c => c == '/')).takeWhile (fun c => c != '/')).reverse)

/-- Node `path.posix.join` restricted to two arguments. -/
def pathJoin (a b : String) : String :=
  match ([a, b].filter (fun s => !s.isEmpty)) with
  | [] => "."
  | parts => pathNormalize (String.intercalate "/" parts)

/-- Stands in for `crypto.createHash('md5').update(x).digest('hex')`.  The
cache theorems are proved for an arbitrary digest function, so only
concrete evaluations use this fixed stub. -/
def md5HexStub : String → String := fun _ => "9e107d9d372bb6826bd81d3542a419d6"

/-- The filesystem as the `cache-video` handler observes it: the set of
existing file paths. -/
structure CacheFS where
  files : List String

structure CacheOutcome where
  dest : String
  fs : CacheFS
  copies : Nat

/-- The destination path the `cache-video` handler computes for a source
path (main.ts 266-273): twelve hex digits of the digest of the
*normalized* input joined with the base name of the *raw* input. -/
def cacheDest (hashHex : String → String) (cacheDir filePath : String) : String :=
  pathJoin cacheDir
    (jsSubstring (hashHex (pathNormalize filePath)) 0 12 ++ "_" ++ pathBasename filePath)

/-- The `cache-video` handler (main.ts 241-290) over the file-existence
model: `copies` counts `fs.promises.copyFile` calls (the `mkdirSync` of
the cache directory and the bytes copied are not modelled). -/
def cacheVideo (hashHex : String → String) (fs : CacheFS) (cacheDir filePath : String) :
    CacheOutcome :=
  let normalizedInput := pathNormalize filePath
  let normalizedCache := pathNormalize cacheDir
  if jsStartsWith normalizedInput normalizedCache then
    { dest := normalizedInput, fs := fs, copies := 0 }
  else
    let destPath := cacheDest hashHex cacheDir filePath
    if fs.files.contains destPath then { dest := destPath, fs := fs, copies := 0 }
    else { dest := destPath, fs := { files := destPath :: fs.files }, copies := 1 }

/-- How the `check-python-env` promise is resolved by its `close` handler
(main.ts 517-537): `ok missing` is `resolve({success:true, missing})`,
`failMsg e` is `resolve({success:false, error: e})` with the given text,
and `failParse` is the catch branch, `resolve({success:false, error:
"Parse error: ..."})` with the text of the `JSON.parse` exception. -/
inductive CheckResult where
  | ok (missing : Json) : CheckResult
  | failMsg (error : String) : CheckResult
  | failParse : CheckResult

def CheckResult.isFail : CheckResult → Bool
  | ok _ => false
  | failMsg _ => true
  | failParse => true

/-- The `close` handler of `check-python-env` (main.ts 517-537): the text
from the first `{` to the last `}` of the whole accumulated stdout is
parsed as JSON whenever both braces exist, resolving success with
`result.missing || []` and ignoring the exit code; without such a brace
pair a non-zero (or null) exit code resolves failure and exit code 0
resolves success with no missing entries. -/
def checkClose (code : Option Int) (output : String) : CheckResult :=
  match jsIndexOfChar output '{', jsLastIndexOfChar output '}' with
  | some js, some je =>
    match jsonParse (jsSubstring output js (je + 1)) with
    | some r => CheckResult.ok (jsMissingOrEmpty r)
    | none => CheckResult.failParse
  | _, _ =>
    if code ≠ some 0 then CheckResult.failMsg "Dependency check failed (non-zero exit)"
    else CheckResult.ok (Json.arr [])

theorem data_append (a b : String) : (a ++ b).data = a.data ++ b.data := rfl

theorem mk_data (s : String) : String.mk s.data = s := rfl

theorem splitGo_cons_sep (sep : Char) (ys : List Char) :
    splitGo sep (sep :: ys) = [] :: splitGo sep ys := by
  simp [splitGo]

theorem splitGo_append_sep {sep : Char} {xs : List Char} (h : sep ∉ xs) (ys : List Char) :
    splitGo sep (xs ++ sep :: ys) = xs :: splitGo sep ys := by
  induction xs with
  | nil => simp [splitGo]
  | cons c cs ih =>
    have hc : ¬(c = sep) := fun hcc => h (hcc ▸ List.mem_cons_self c cs)
    have hcs : sep ∉ cs := fun hm => h (List.mem_cons_of_mem c hm)
    rw [List.cons_append]
    simp [splitGo, hc, ih hcs]

theorem lineEvents_empty : lineEvents "" = [] := rfl

/-- C5 helper: a chunk of three newline-free lines, each newline-terminated,
splits into exactly those lines plus the final empty segment. -/
theorem chunkEvents_three_lines (l1 l2 l3 : String)
    (h1 : '\n' ∉ l1.data) (h2 : '\n' ∉ l2.data) (h3 : '\n' ∉ l3.data) :
    chunkEvents (l1 ++ "\n" ++ l2 ++ "\n" ++ l3 ++ "\n")
      = lineEvents l1 ++ lineEvents l2 ++ lineEvents l3 := by
  unfold chunkEvents jsSplitChar
  have hd : (l1 ++ "\n" ++ l2 ++ "\n" ++ l3 ++ "\n").data
      = l1.data ++ '\n' :: (l2.data ++ '\n' :: (l3.data ++ '\n' :: [])) := by
    simp [data_append]
  rw [hd, splitGo_append_sep h1, splitGo_append_sep h2, splitGo_append_sep h3]
  simp [splitGo, mk_data, lineEvents_empty]

/-- C1 (code bug): a well-formed stream consisting of one `[PROGRESS]` line
followed by a sentinel-wrapped terminal payload, delivered split in the
middle of the progress line, produces the event `Progress 1` where the
single-chunk delivery produces `Progress 10`: the decoder is not
chunk-invariant, because each chunk is split on newlines by itself with no
carry-over of a partial line.  The terminal payload, parsed from the
accumulated buffer, is unaffected by the split. -/
theorem midline_chunk_split_changes_progress_events :
    chunksEvents ["[PROGRESS] 1", "0\n__JSON_START__ \x7b\x7d __JSON_END__\n"]
        = [PEvent.progress 1]
    ∧ chunksEvents ["[PROGRESS] 10\n__JSON_START__ \x7b\x7d __JSON_END__\n"]
        = [PEvent.progress 10]
    ∧ accumulated ["[PROGRESS] 1", "0\n__JSON_START__ \x7b\x7d __JSON_END__\n"]
        = accumulated ["[PROGRESS] 10\n__JSON_START__ \x7b\x7d __JSON_END__\n"]
    ∧ closeHandler (some 0)
        (accumulated ["[PROGRESS] 1", "0\n__JSON_START__ \x7b\x7d __JSON_END__\n"]) ""
        = CloseOutcome.resolvedStructured (Json.obj []) :=
  ⟨rfl, rfl, rfl, rfl⟩

/-- C2 (code bug): starting a second job while the first worker is still
running neither rejects the request nor terminates the first worker: the
handler overwrites the single tracked handle, after which two spawned
processes are simultaneously alive, neither of their promises settled, and
only the second is tracked. -/
theorem second_start_leaves_two_live_processes :
    ((runBackendStart (runBackendStart initialSup)).procs.map (fun w => w.alive))
        = [true, true]
    ∧ ((runBackendStart (runBackendStart initialSup)).procs.map (fun w => w.settled.isNone))
        = [true, true]
    ∧ ((runBackendStart (runBackendStart initialSup)).procs.map (fun w => w.pid)) = [0, 1]
    ∧ (runBackendStart (runBackendStart initialSup)).active = some 1 :=
  ⟨rfl, rfl, rfl, rfl⟩

/-- C3 counterexample: with both sentinels present but a malformed payload
between them, a zero-exit run does not resolve at all — the close handler
rejects from its catch branch, against the claim that the promise never
rejects once the exit code is zero. -/
theorem malformed_terminal_payload_rejects :
    (closeHandler (some 0) "__JSON_START__ nope __JSON_END__" "boom").isResolved = false
    ∧ closeHandler (some 0) "__JSON_START__ nope __JSON_END__" "boom"
        = CloseOutcome.rejectedParse :=
  ⟨rfl, rfl⟩

/-- C3 as amended: on a zero-exit run, a missing sentinel resolves with the
raw stdout/stderr fallback (an outcome distinct from every structured
success); both sentinels present with a payload that parses resolves
structured; both sentinels present with a payload that does not parse
rejects with a parse error. -/
theorem terminal_parse_cases (out err : String) :
    (jsIndexOf out startMarker = none ∨ jsIndexOf out endMarker = none →
       closeHandler (some 0) out err = CloseOutcome.resolvedRaw out err)
    ∧ (∀ si ei j, jsIndexOf out startMarker = some si → jsIndexOf out endMarker = some ei →
        jsonParse (jsTrim (jsSubstring out (si + startMarker.length) ei)) = some j →
        closeHandler (some 0) out err = CloseOutcome.resolvedStructured j)
    ∧ (∀ si ei, jsIndexOf out startMarker = some si → jsIndexOf out endMarker = some ei →
        jsonParse (jsTrim (jsSubstring out (si + startMarker.length) ei)) = none →
        closeHandler (some 0) out err = CloseOutcome.rejectedParse)
    ∧ (∀ j, CloseOutcome.resolvedRaw out err ≠ CloseOutcome.resolvedStructured j) := by
  refine ⟨?_, ?_, ?_, fun j h => CloseOutcome.noConfusion h⟩
  · intro h
    rcases h with h | h
    · cases h2 : jsIndexOf out endMarker <;> simp [closeHandler, h, h2]
    · cases h1 : jsIndexOf out startMarker <;> simp [closeHandler, h, h1]
  · intro si ei j h1 h2 hj
    simp [closeHandler, h1, h2, hj]
  · intro si ei h1 h2 hj
    simp [closeHandler, h1, h2, hj]

theorem terminal_parse_cases_witness :
    jsIndexOf "__JSON_START__ \x7b\x7d __JSON_END__" startMarker = some 0
    ∧ jsIndexOf "__JSON_START__ \x7b\x7d __JSON_END__" endMarker = some 18
    ∧ jsonParse (jsTrim (jsSubstring "__JSON_START__ \x7b\x7d __JSON_END__"
        (0 + startMarker.length) 18)) = some (Json.obj [])
    ∧ closeHandler (some 0) "__JSON_START__ \x7b\x7d __JSON_END__" ""
        = CloseOutcome.resolvedStructured (Json.obj [])
    ∧ jsIndexOf "no sentinels here" startMarker = none
    ∧ closeHandler (some 0) "no sentinels here" "err"
        = CloseOutcome.resolvedRaw "no sentinels here" "err" :=
  ⟨rfl, rfl, rfl,
   (terminal_parse_cases "__JSON_START__ \x7b\x7d __JSON_END__" "").2.1 0 18 (Json.obj [])
     rfl rfl rfl,
   rfl,
   (terminal_parse_cases "no sentinels here" "err").1 (Or.inl rfl)⟩

/-- C4 counterexample: a run exiting with code zero whose stdout carries
both sentinels around a malformed payload does not resolve with the
decoder's result — the promise rejects with a parse error. -/
theorem zero_exit_rejects_on_malformed_payload :
    (closeHandler (some 0) "__JSON_START__\x7b__JSON_END__" "").isResolved = false
    ∧ closeHandler (some 0) "__JSON_START__\x7b__JSON_END__" ""
        = CloseOutcome.rejectedParse :=
  ⟨rfl, rfl⟩

/-- C4 as amended: a non-zero (or signal/null) exit code rejects with that
exit code and the full captured stderr — the rejection message embeds the
stderr text verbatim — and no terminal payload is parsed (the outcome does
not depend on stdout at all); a zero exit resolves with the decoder's
result except when both sentinels are present and the payload between them
is malformed, in which case it rejects with a parse error. -/
theorem nonzero_exit_rejects_with_code_and_stderr (code : Option Int) (out out2 err : String) :
    (code ≠ some 0 →
       closeHandler code out err = CloseOutcome.rejectedExit code err
       ∧ closeHandler code out err = closeHandler code out2 err)
    ∧ (∃ pre, rejectMessage code err = pre ++ err)
    ∧ (jsIndexOf out startMarker = none ∨ jsIndexOf out endMarker = none →
        closeHandler (some 0) out err = CloseOutcome.resolvedRaw out err)
    ∧ (∀ si ei j, jsIndexOf out startMarker = some si → jsIndexOf out endMarker = some ei →
        jsonParse (jsTrim (jsSubstring out (si + startMarker.length) ei)) = some j →
        closeHandler (some 0) out err = CloseOutcome.resolvedStructured j)
    ∧ (∀ si ei, jsIndexOf out startMarker = some si → jsIndexOf out endMarker = some ei →
        jsonParse (jsTrim (jsSubstring out (si + startMarker.length) ei)) = none →
        closeHandler (some 0) out err = CloseOutcome.rejectedParse) := by
  refine ⟨fun h => ⟨?_, ?_⟩, ⟨"Python process exited with code " ++ codeText code ++ ". Error: ", rfl⟩,
    (terminal_parse_cases out err).1, (terminal_parse_cases out err).2.1,
    (terminal_parse_cases out err).2.2.1⟩
  · simp [closeHandler, h]
  · simp [closeHandler, h]

theorem nonzero_exit_rejects_witness :
    ((some 1 : Option Int) ≠ some 0)
    ∧ closeHandler (some 1) "" "boom" = CloseOutcome.rejectedExit (some 1) "boom"
    ∧ rejectMessage (some 1) "boom" = "Python process exited with code 1. Error: boom"
    ∧ closeHandler (some 1) "" "boom" = closeHandler (some 1) "__JSON_START__ \x7b\x7d __JSON_END__" "boom" :=
  ⟨by decide,
   ((nonzero_exit_rejects_with_code_and_stderr (some 1) "" "x" "boom").1 (by decide)).1,
   rfl,
   ((nonzero_exit_rejects_with_code_and_stderr (some 1) ""
      "__JSON_START__ \x7b\x7d __JSON_END__" "boom").1 (by decide)).2⟩

/-- C5: a stream of three newline-terminated `[PARTIAL]` lines whose middle
capture fails `JSON.parse` while the outer two parse yields exactly the two
valid Partial events, in order — the malformed line is dropped and decoding
continues (the decoder has no failure outcome at all). -/
theorem corrupt_partial_dropped_between_valid
    (l1 l2 l3 s1 s2 s3 : String) (va vb : Json)
    (hn1 : '\n' ∉ l1.data) (hn2 : '\n' ∉ l2.data) (hn3 : '\n' ∉ l3.data)
    (hp1 : progressMatch l1 = none) (hp2 : progressMatch l2 = none)
    (hp3 : progressMatch l3 = none)
    (hc1 : partialCapture l1 = some s1) (hj1 : jsonParse (jsTrim s1) = some va)
    (hc2 : partialCapture l2 = some s2) (hj2 : jsonParse (jsTrim s2) = none)
    (hc3 : partialCapture l3 = some s3) (hj3 : jsonParse (jsTrim s3) = some vb) :
    chunkEvents (l1 ++ "\n" ++ l2 ++ "\n" ++ l3 ++ "\n")
      = [PEvent.partialResult va, PEvent.partialResult vb] := by
  rw [chunkEvents_three_lines l1 l2 l3 hn1 hn2 hn3]
  simp [lineEvents, hp1, hp2, hp3, hc1, hc2, hc3, hj1, hj2, hj3]

theorem corrupt_partial_dropped_witness :
    partialCapture "[PARTIAL] [1]" = some "[1]"
    ∧ jsonParse (jsTrim "[1]") = some (Json.arr [Json.num "1"])
    ∧ partialCapture "[PARTIAL] oops" = some "oops"
    ∧ jsonParse (jsTrim "oops") = none
    ∧ chunkEvents ("[PARTIAL] [1]" ++ "\n" ++ "[PARTIAL] oops" ++ "\n" ++ "[PARTIAL] true" ++ "\n")
        = [PEvent.partialResult (Json.arr [Json.num "1"]), PEvent.partialResult (Json.bool true)] :=
  ⟨rfl, rfl, rfl, rfl,
   corrupt_partial_dropped_between_valid "[PARTIAL] [1]" "[PARTIAL] oops" "[PARTIAL] true"
     "[1]" "oops" "true" (Json.arr [Json.num "1"]) (Json.bool true)
     (by decide) (by decide) (by decide) rfl rfl rfl rfl rfl rfl rfl rfl rfl⟩

/-- C6 counterexample: two spellings of the same file — `/videos/clip.mp4`
and `/videos/clip.mp4/.` — have the same normalized path, yet the handler
computes different destinations for them, because the destination's base
name is taken from the raw input path while only the digest uses the
normalized one.  The destination is therefore not a pure function of the
normalized source path.  (The digest function is irrelevant here: both
calls hash the identical normalized string.) -/
theorem dest_not_function_of_normalized_path :
    pathNormalize "/videos/clip.mp4/." = pathNormalize "/videos/clip.mp4"
    ∧ (cacheVideo md5HexStub ⟨[]⟩ "/data/.cache" "/videos/clip.mp4/.").dest
        ≠ (cacheVideo md5HexStub ⟨[]⟩ "/data/.cache" "/videos/clip.mp4").dest :=
  ⟨rfl, by decide⟩

/-- C6 as amended: for a source path outside the cache directory whose
destination does not yet exist, two successive calls perform exactly one
copy in total and return the same destination both times; and the
destination is a pure function of the pair (normalized source path, raw
source base name) — not of the normalized path alone. -/
theorem cache_idempotent_and_dest_determined
    (hashHex : String → String) (fs : CacheFS) (cacheDir p : String)
    (hpre : jsStartsWith (pathNormalize p) (pathNormalize cacheDir) = false)
    (hfresh : fs.files.contains (cacheDest hashHex cacheDir p) = false) :
    (cacheVideo hashHex fs cacheDir p).dest = cacheDest hashHex cacheDir p
    ∧ (cacheVideo hashHex fs cacheDir p).copies = 1
    ∧ (cacheVideo hashHex (cacheVideo hashHex fs cacheDir p).fs cacheDir p).dest
        = (cacheVideo hashHex fs cacheDir p).dest
    ∧ (cacheVideo hashHex (cacheVideo hashHex fs cacheDir p).fs cacheDir p).copies = 0
    ∧ (∀ q, pathNormalize q = pathNormalize p → pathBasename q = pathBasename p →
        cacheDest hashHex cacheDir q = cacheDest hashHex cacheDir p) := by
  have hfresh2 : cacheDest hashHex cacheDir p ∉ fs.files := by simpa using hfresh
  refine ⟨?_, ?_, ?_, ?_, ?_⟩
  · simp [cacheVideo, hpre, hfresh2]
  · simp [cacheVideo, hpre, hfresh2]
  · simp [cacheVideo, hpre, hfresh2]
  · simp [cacheVideo, hpre, hfresh2]
  · intro q hq hb
    unfold cacheDest
    rw [hq, hb]

theorem cache_idempotent_witness :
    jsStartsWith (pathNormalize "/videos/clip.mp4") (pathNormalize "/data/.cache") = false
    ∧ (CacheFS.mk []).files.contains (cacheDest md5HexStub "/data/.cache" "/videos/clip.mp4") = false
    ∧ (cacheVideo md5HexStub ⟨[]⟩ "/data/.cache" "/videos/clip.mp4").dest
        = cacheDest md5HexStub "/data/.cache" "/videos/clip.mp4"
    ∧ (cacheVideo md5HexStub ⟨[]⟩ "/data/.cache" "/videos/clip.mp4").copies = 1
    ∧ (cacheVideo md5HexStub (cacheVideo md5HexStub ⟨[]⟩ "/data/.cache" "/videos/clip.mp4").fs
        "/data/.cache" "/videos/clip.mp4").copies = 0
    ∧ cacheDest md5HexStub "/data/.cache" "/videos/./clip.mp4"
        = cacheDest md5HexStub "/data/.cache" "/videos/clip.mp4" :=
  ⟨rfl, rfl,
   (cache_idempotent_and_dest_determined md5HexStub ⟨[]⟩ "/data/.cache" "/videos/clip.mp4"
      rfl rfl).1,
   (cache_idempotent_and_dest_determined md5HexStub ⟨[]⟩ "/data/.cache" "/videos/clip.mp4"
      rfl rfl).2.1,
   (cache_idempotent_and_dest_determined md5HexStub ⟨[]⟩ "/data/.cache" "/videos/clip.mp4"
      rfl rfl).2.2.2.1,
   (cache_idempotent_and_dest_determined md5HexStub ⟨[]⟩ "/data/.cache" "/videos/clip.mp4"
      rfl rfl).2.2.2.2 "/videos/./clip.mp4" rfl rfl⟩

/-- C7: with a job tracked as active, `kill-backend` reports success and
clears the tracked handle; the `close` event the operating system then
delivers for the killed process settles that process's promise (so the
pending `start` promise does not hang); and a subsequent `start` installs
its freshly spawned process as the active one. -/
theorem kill_clears_handle_and_close_settles
    (s : SupState) (p : Nat) (hact : s.active = some p) :
    (killBackend s).2 = true
    ∧ (killBackend s).1.active = none
    ∧ (∀ code, ∀ w ∈ (onClose (killBackend s).1 p code).procs, w.pid = p →
        w.settled.isSome = true)
    ∧ (runBackendStart (killBackend s).1).active = some (killBackend s).1.nextPid := by
  refine ⟨?_, ?_, ?_, rfl⟩
  · simp [killBackend, hact]
  · simp [killBackend, hact]
  · intro code w hw hpid
    simp only [killBackend, hact, onClose, List.map_map] at hw
    obtain ⟨w0, hw0, rfl⟩ := List.mem_map.mp hw
    by_cases h : w0.pid = p
    · simp only [Function.comp_apply, h, if_pos]
      cases hs : w0.settled <;> simp [h, hs]
    · exfalso
      simp [Function.comp_apply, h] at hpid

theorem kill_clears_handle_witness :
    (runBackendStart initialSup).active = some 0
    ∧ (killBackend (runBackendStart initialSup)).2 = true
    ∧ (killBackend (runBackendStart initialSup)).1.active = none
    ∧ ((onClose (killBackend (runBackendStart initialSup)).1 0 none).procs.map
        (fun w => w.settled.isSome)) = [true]
    ∧ (runBackendStart (killBackend (runBackendStart initialSup)).1).active = some 1 :=
  ⟨rfl,
   (kill_clears_handle_and_close_settles (runBackendStart initialSup) 0 rfl).1,
   (kill_clears_handle_and_close_settles (runBackendStart initialSup) 0 rfl).2.1,
   rfl,
   rfl⟩

/-- C8 counterexample: a diagnostic run that exits with code 0 and prints
no machine-readable JSON — only the non-JSON text `Missing: {oops}` — is
not resolved as success-with-nothing-missing: because the output contains
a brace pair, the handler tries to parse it and resolves the parse-error
failure instead. -/
theorem nonjson_brace_output_fails_at_zero_exit :
    jsonParse "\x7boops\x7d" = none
    ∧ checkClose (some 0) "Missing: \x7boops\x7d" = CheckResult.failParse
    ∧ (checkClose (some 0) "Missing: \x7boops\x7d").isFail = true :=
  ⟨rfl, rfl, rfl⟩

/-- C8 as amended: when the accumulated stdout contains no `{` or no `}`
(the handler's test for machine-readable output), exit code 0 resolves
success with an empty missing list and a non-zero (or null) exit code
resolves a failed check; but an output containing a brace pair whose
bracketed text does not parse as JSON resolves a parse-error failure
regardless of the exit code, even code 0. -/
theorem no_json_output_tolerated (code : Option Int) (out : String) :
    (jsIndexOfChar out '{' = none ∨ jsLastIndexOfChar out '}' = none →
       (code = some 0 → checkClose code out = CheckResult.ok (Json.arr []))
       ∧ (code ≠ some 0 →
            checkClose code out = CheckResult.failMsg "Dependency check failed (non-zero exit)"))
    ∧ (∀ i j, jsIndexOfChar out '{' = some i → jsLastIndexOfChar out '}' = some j →
        jsonParse (jsSubstring out i (j + 1)) = none →
        checkClose code out = CheckResult.failParse) := by
  constructor
  · intro h
    constructor
    · intro hc
      subst hc
      rcases h with h | h
      · cases h2 : jsLastIndexOfChar out '}' <;> simp [checkClose, h, h2]
      · cases h1 : jsIndexOfChar out '{' <;> simp [checkClose, h, h1]
    · intro hc
      rcases h with h | h
      · cases h2 : jsLastIndexOfChar out '}' <;> simp [checkClose, h, h2, hc]
      · cases h1 : jsIndexOfChar out '{' <;> simp [checkClose, h, h1, hc]
  · intro i j h1 h2 hp
    simp [checkClose, h1, h2, hp]

theorem no_json_output_tolerated_witness :
    jsIndexOfChar "All good" '{' = none
    ∧ checkClose (some 0) "All good" = CheckResult.ok (Json.arr [])
    ∧ checkClose (some 2) "All good" = CheckResult.failMsg "Dependency check failed (non-zero exit)"
    ∧ jsIndexOfChar "Missing: \x7boops\x7d" '{' = some 9
    ∧ jsLastIndexOfChar "Missing: \x7boops\x7d" '}' = some 14
    ∧ jsonParse (jsSubstring "Missing: \x7boops\x7d" 9 15) = none
    ∧ checkClose (some 0) "Missing: \x7boops\x7d" = CheckResult.failParse :=
  ⟨rfl,
   ((no_json_output_tolerated (some 0) "All good").1 (Or.inl rfl)).1 rfl,
   ((no_json_output_tolerated (some 2) "All good").1 (Or.inl rfl)).2 (by decide),
   rfl, rfl, rfl,
   (no_json_output_tolerated (some 0) "Missing: \x7boops\x7d").2 9 14 rfl rfl rfl⟩

/-- C9: the already-cached test of the `cache-video` handler is a raw
string-prefix comparison of normalized paths, so every input whose
normalized path merely starts with the normalized cache-directory string is
returned (normalized) with no copy performed and the filesystem untouched —
including, as the witness shows, a file of a sibling directory
`.cache_other` that does not lie inside the cache directory. -/
theorem cache_prefix_check_returns_input_without_copy
    (hashHex : String → String) (fs : CacheFS) (cacheDir p : String)
    (h : jsStartsWith (pathNormalize p) (pathNormalize cacheDir) = true) :
    (cacheVideo hashHex fs cacheDir p).dest = pathNormalize p
    ∧ (cacheVideo hashHex fs cacheDir p).fs = fs
    ∧ (cacheVideo hashHex fs cacheDir p).copies = 0 := by
  refine ⟨?_, ?_, ?_⟩ <;> simp [cacheVideo, h]

theorem cache_prefix_check_witness :
    jsStartsWith (pathNormalize "/data/.cache_other/v.mp4") (pathNormalize "/data/.cache") = true
    ∧ jsStartsWith (pathNormalize "/data/.cache_other/v.mp4")
        (pathNormalize "/data/.cache" ++ "/") = false
    ∧ (cacheVideo md5HexStub ⟨[]⟩ "/data/.cache" "/data/.cache_other/v.mp4").dest
        = "/data/.cache_other/v.mp4"
    ∧ (cacheVideo md5HexStub ⟨[]⟩ "/data/.cache" "/data/.cache_other/v.mp4").copies = 0 :=
  ⟨rfl, rfl,
   (cache_prefix_check_returns_input_without_copy md5HexStub ⟨[]⟩ "/data/.cache"
      "/data/.cache_other/v.mp4" rfl).1,
   (cache_prefix_check_returns_input_without_copy md5HexStub ⟨[]⟩ "/data/.cache"
      "/data/.cache_other/v.mp4" rfl).2.2⟩

/-- C10: whenever the accumulated stdout has a first `{` and a last `}`
and the text between them (inclusive) parses as JSON, the handler resolves
success with `result.missing || []` no matter what the exit code is; and
under a non-zero (or null) exit code, the resolution is a failure exactly
when no such parsing brace pair exists. -/
theorem check_env_json_extraction_overrides_exit_code (code : Option Int) (out : String) :
    (∀ i j v, jsIndexOfChar out '{' = some i → jsLastIndexOfChar out '}' = some j →
       jsonParse (jsSubstring out i (j + 1)) = some v →
       checkClose code out = CheckResult.ok (jsMissingOrEmpty v))
    ∧ (code ≠ some 0 →
        ((checkClose code out).isFail = true ↔
          ¬ ∃ i j v, jsIndexOfChar out '{' = some i ∧ jsLastIndexOfChar out '}' = some j
              ∧ jsonParse (jsSubstring out i (j + 1)) = some v)) := by
  constructor
  · intro i j v h1 h2 hv
    simp [checkClose, h1, h2, hv]
  · intro hc
    cases h1 : jsIndexOfChar out '{' with
    | none => simp [checkClose, h1, hc, CheckResult.isFail]
    | some i =>
      cases h2 : jsLastIndexOfChar out '}' with
      | none => simp [checkClose, h1, h2, hc, CheckResult.isFail]
      | some j =>
        cases hv : jsonParse (jsSubstring out i (j + 1)) with
        | none => simp [checkClose, h1, h2, hv, CheckResult.isFail]
        | some v => simp [checkClose, h1, h2, hv, CheckResult.isFail]

theorem check_env_json_extraction_witness :
    jsIndexOfChar "log \x7b\"missing\": [\"torch\"]\x7d done" '{' = some 4
    ∧ jsLastIndexOfChar "log \x7b\"missing\": [\"torch\"]\x7d done" '}' = some 25
    ∧ jsonParse (jsSubstring "log \x7b\"missing\": [\"torch\"]\x7d done" 4 26)
        = some (Json.obj [("missing", Json.arr [Json.str "torch"])])
    ∧ checkClose (some 2) "log \x7b\"missing\": [\"torch\"]\x7d done"
        = CheckResult.ok (Json.arr [Json.str "torch"]) :=
  ⟨rfl, rfl, rfl,
   (check_env_json_extraction_overrides_exit_code (some 2)
      "log \x7b\"missing\": [\"torch\"]\x7d done").1 4 25
      (Json.obj [("missing", Json.arr [Json.str "torch"])]) rfl rfl rfl⟩
